import Mathlib

/-!
Verification of the `openai-agents` TypeScript library (betcorg/openai-agents)
against its natural-language specification.

The development shallowly embeds the relevant parts of the source:
  * `src/utils.ts`            — `getTokensUsage` (usage aggregation)
  * `src/storage.ts`          — `AgentStorage` (per-user Redis-backed history)
  * `src/modules/tools-registry.ts` — tool loading / validation / resolution
  * `src/agent.ts`            — `_callChosenFunctions` (tool dispatcher),
                                `_handleSystemInstructionMessage`,
                                `_getContextMessages`, `_handleToolCompletion`,
                                `createChatCompletion` (turn orchestrator)

JavaScript objects are modelled as association lists, JS `undefined` as
`Option`, thrown exceptions as `Except` with the thrown `Error` message,
and `Promise` resolution as direct evaluation (one asynchronous flow per
turn; the code awaits every effect sequentially).  Redis is modelled as a
key → list map together with fault injection for the read the orchestrator
performs; `JSON.stringify`/`JSON.parse` round-tripping of stored messages
is modelled as the identity (the store holds messages directly).
-/

/-- Message roles of the OpenAI chat API. -/
inductive Role where
  | system
  | user
  | assistant
  | tool
deriving DecidableEq, Repr

/-- The `function` field of a model-issued tool call:
`{ name, arguments }` with `arguments` the raw (unparsed) string. -/
structure FunctionCall where
  name : String
  arguments : String
deriving DecidableEq, Repr

/-- A model-issued tool call `{ id, function: { name, arguments } }`. -/
structure ToolCallObj where
  id : String
  function : FunctionCall
deriving DecidableEq, Repr

/-- A chat message. Covers `ChatCompletionMessageParam` and the assistant
message returned by the provider.  `content` is `none` for JS
`null`/`undefined` content; `tool_calls` is `none` when the field is absent
(JS `undefined`) and `some l` when present — note `some []` is a *present but
empty* array, which is truthy in JS. -/
structure Msg where
  role : Role
  content : Option String := none
  tool_calls : Option (List ToolCallObj) := none
  tool_call_id : Option String := none
deriving DecidableEq, Repr

/-- `CompletionUsage`: the three token counters the code constructs
(`prompt_tokens`, `completion_tokens`, `total_tokens`).  The claims restrict
to non-negative integers, so `Nat` is faithful. -/
structure Usage where
  prompt_tokens : Nat
  completion_tokens : Nat
  total_tokens : Nat
deriving DecidableEq, Repr

/-- Embeds `getTokensUsage` from `src/utils.ts`: field-wise addition with a
missing (`undefined`) operand contributing `?? 0`. -/
def getTokensUsage (usage1 usage2 : Option Usage) : Usage :=
  { prompt_tokens :=
      ((usage1.map Usage.prompt_tokens).getD 0) +
      ((usage2.map Usage.prompt_tokens).getD 0)
    completion_tokens :=
      ((usage1.map Usage.completion_tokens).getD 0) +
      ((usage2.map Usage.completion_tokens).getD 0)
    total_tokens :=
      ((usage1.map Usage.total_tokens).getD 0) +
      ((usage2.map Usage.total_tokens).getD 0) }

/-! ## History store (`src/storage.ts`, class `AgentStorage`)

The Redis client is modelled as an association list from keys to message
lists.  Redis lists are prepend-optimized: `lPush` adds at the head, so the
most recent message is physically first.  A key exists iff it is present in
the association list (Redis drops empty lists, and no operation of the code
ever creates one). -/

/-- The underlying ordered-list store (the Redis database). -/
abbrev Store := List (String × List Msg)

/-- Value of a key; `[]` when the key is absent (Redis `LRANGE` on a missing
key returns the empty list). -/
def storeGet (st : Store) (k : String) : List Msg :=
  ((st.find? (fun p => p.1 = k)).map (fun p => p.2)).getD []

/-- Removes a key. -/
def storeErase (st : Store) (k : String) : Store :=
  st.filter (fun p => p.1 ≠ k)

/-- Whether a key exists. -/
def storeHasKey (st : Store) (k : String) : Bool :=
  st.any (fun p => p.1 = k)

/-- Redis `LPUSH key m`: prepends `m` to the list at `key`, creating it if
absent. -/
def lPush (st : Store) (k : String) (m : Msg) : Store :=
  (k, m :: storeGet st k) :: storeErase st k

/-- Redis `LRANGE key 0 (n-1)`: the first `n` elements. -/
def lRangeTake (st : Store) (k : String) (n : Nat) : List Msg :=
  (storeGet st k).take n

/-- Redis `DEL key`: removes the key, returning the number of keys removed
(`1` if the key existed, `0` otherwise). -/
def redisDel (st : Store) (k : String) : Nat × Store :=
  (if storeHasKey st k then 1 else 0, storeErase st k)

/-- `HistoryOptions` (`src/types.ts`): `appended_messages` is the read
limit, `remove_tool_messages` the transcript filter; both optional. -/
structure HistoryOptions where
  appended_messages : Option Nat := none
  remove_tool_messages : Option Bool := none
deriving DecidableEq, Repr

/-- JS truthiness of an optional string (`undefined` and `''` are falsy). -/
def jsTruthyStr : Option String → Bool
  | none => false
  | some s => s ≠ ""

/-- JS truthiness of an optional number (`undefined` and `0` are falsy). -/
def jsTruthyNat : Option Nat → Bool
  | none => false
  | some n => n ≠ 0

/-- `const id = userId ? userId : 'default'`. -/
def defaultedUserId : Option String → String
  | none => "default"
  | some u => if u = "" then "default" else u

/-- Embeds `AgentStorage.getStoredMessages` (`src/storage.ts`):
`appended_messages === 0` returns `[]` at once; a truthy limit reads
`lRange 0 (limit-1)`; otherwise the whole list (`lRange 0 -1`).  The fetched
range is reversed once to chronological order, then optionally filtered to
user messages and assistant messages without `tool_calls`. -/
def getStoredMessages (st : Store) (userId : String)
    (options : HistoryOptions) : List Msg :=
  let key := "user:" ++ userId
  if options.appended_messages = some 0 then []
  else
    let messages : List Msg :=
      match options.appended_messages with
      | some k => lRangeTake st key k
      | none => storeGet st key
    if messages.isEmpty then []
    else
      let parsedMessages := messages.reverse
      if options.remove_tool_messages.getD false then
        parsedMessages.filter (fun m =>
          m.role = Role.user ∨ (m.role = Role.assistant ∧ m.tool_calls = none))
      else parsedMessages

/-- `if (messages[0]?.role === 'system') messages.shift()`. -/
def dropLeadingSystem : List Msg → List Msg
  | m :: rest => if m.role = Role.system then rest else m :: rest
  | [] => []

/-- Embeds `AgentStorage.saveChatHistory` (`src/storage.ts`): defaults the
user id, drops a leading system-role message (`messages.shift()`), then
`lPush`es each remaining message in order under `user:<id>`.  Returns the
re-read log together with the updated store. -/
def saveChatHistory (st : Store) (userId : Option String)
    (messages : List Msg) : List Msg × Store :=
  let id := defaultedUserId userId
  let msgs := dropLeadingSystem messages
  let st' := msgs.foldl (fun s m => lPush s ("user:" ++ id) m) st
  (getStoredMessages st' id {}, st')

/-- Embeds `AgentStorage.deleteHistory` (`src/storage.ts`): Redis
`DEL user:<userId>`, whose return value (the number of *keys* removed) is
returned unchanged. -/
def deleteHistory (st : Store) (userId : String) : Nat × Store :=
  redisDel st ("user:" ++ userId)

/-- Embeds `OpenAIAgent.deleteChatHistory` (`src/agent.ts`): throws a
`ValidationError` when no storage is configured, otherwise runs
`deleteHistory` and returns `true`. -/
def deleteChatHistory (storageConfigured : Bool) (st : Store)
    (userId : String) : Except String (Bool × Store) :=
  if !storageConfigured then
    Except.error "Agent storage is not initalized."
  else
    Except.ok (true, (deleteHistory st userId).2)

/-! ## Tool registry (`src/modules/tools-registry.ts`)

Dynamically imported JS values are modelled by `JsValue`; a tool
implementation takes the parsed arguments and either throws (`.error`),
returns `undefined` (`.ok none`), or returns a string (`.ok (some s)`).
The JS objects holding implementations are association lists with unique
keys maintained by upsert, so `Object.keys(fns).length` is the list length.
The filesystem enumeration (`fs.access`/`readdir`/`stat`/`import`) is an
I/O boundary: the embedding starts from the list of exported
`(name, value)` pairs those imports yield, in load order; the
`DirectoryAccessError`/`FileReadError`/`FileImportError` paths wrap faults
of that boundary and are outside the embedding. -/

/-- A dynamic JS value (as far as the validators inspect one). -/
inductive JsValue where
  | nullv
  | boolv (b : Bool)
  | numv (n : Int)
  | strv (s : String)
  | objv (fields : List (String × JsValue))

/-- A tool implementation (`ToolFunction` in `src/types.ts`):
`(args: object) => Promise<string> | string | undefined`, which may also
throw.  `.error m` models a thrown `Error` with message `m`, `.ok none` a
returned `undefined`, `.ok (some s)` a returned string. -/
def ToolFunction := JsValue → Except String (Option String)

/-- The implementation map (`ToolFunctions`), a JS object. -/
abbrev ToolFunctions := List (String × ToolFunction)

/-- `functions[name]` lookup. -/
def lookupFn (fns : ToolFunctions) (name : String) : Option ToolFunction :=
  (fns.find? (fun p => p.1 = name)).map (fun p => p.2)

/-- JS property assignment `fns[name] = f`: overwrite in place if the key
exists, append otherwise. -/
def fnsInsert (fns : ToolFunctions) (name : String) (f : ToolFunction) :
    ToolFunctions :=
  if fns.any (fun p => p.1 = name) then
    fns.map (fun p => if p.1 = name then (name, f) else p)
  else fns ++ [(name, f)]

/-- `FunctionDefinition`: the schema half of a tool.  Dynamic-type checks
the validators perform (`typeof description !== 'string'` …) cannot fail in
this typed model; `parameters` keeps its dynamic `JsValue` form because the
validator inspects it. -/
structure FunctionDefinition where
  name : String
  description : Option String := none
  parameters : Option JsValue := none
  strict : Option Bool := none

/-- `ChatCompletionTool`: `{ type, function }`.  `type` stays a raw string
because the validator checks `type === 'function'`. -/
structure ChatCompletionTool where
  type : String
  function : FunctionDefinition

/-- The registry snapshot (`AgentTools`). -/
structure AgentTools where
  toolDefinitions : List ChatCompletionTool
  toolFunctions : ToolFunctions

/-- Result of `importToolFunctions` (`ToolChoices`). -/
structure ToolChoices where
  toolChoices : List ChatCompletionTool
  toolFunctions : ToolFunctions

/-- The error classes of `src/errors.ts` that the registry throws.
`validation` is `ValidationError`, `toolNotFound` a `ToolNotFoundError`
(whose constructor prepends `Tool not found: `), `invalidTool` an
`InvalidToolError`, `generic` a plain `Error`. -/
inductive RegistryError where
  | validation (msg : String)
  | toolNotFound (msg : String)
  | invalidTool (msg : String)
  | generic (msg : String)
deriving DecidableEq, Repr

/-- The `message` property of the thrown error. -/
def RegistryError.message : RegistryError → String
  | .validation m => m
  | .toolNotFound m => m
  | .invalidTool m => m
  | .generic m => m

/-- `new ToolNotFoundError(s)` sets `message` to `Tool not found: ` ++ s. -/
def mkToolNotFound (s : String) : RegistryError :=
  RegistryError.toolNotFound ("Tool not found: " ++ s)

/-- Whether a character matches `[a-zA-Z0-9_-]`. -/
def isNameChar (c : Char) : Bool :=
  c.isAlpha || c.isDigit || c = '_' || c = '-'

/-- Embeds `validateFunctionName`: empty (falsy) name, length over 64, or a
character outside `[a-zA-Z0-9_-]` each throw a `ValidationError`. -/
def validateFunctionName (name : String) : Except RegistryError Unit :=
  if name = "" then
    Except.error (RegistryError.validation
      "Function name must be a non-empty string")
  else if name.length > 64 then
    Except.error (RegistryError.validation
      "Function name must not exceed 64 characters")
  else if !(name.toList.all isNameChar) then
    Except.error (RegistryError.validation
      "Function name must contain only alphanumeric characters, underscores, and hyphens")
  else Except.ok ()

/-- Embeds `validateFunctionParameters`: `parameters` must be a non-null
object (in JS, `!params || typeof params !== 'object'` throws). -/
def validateFunctionParameters (params : JsValue) : Except RegistryError Unit :=
  match params with
  | JsValue.objv _ => Except.ok ()
  | _ => Except.error (RegistryError.validation
      "Function parameters must be a non-null object")

/-- Embeds `validateFunctionDefinition`: validates the name, then
`parameters` when provided.  The `description`/`strict` typeof checks are
unrepresentable (always pass) in the typed model. -/
def validateFunctionDefinition (func : FunctionDefinition) :
    Except RegistryError Unit :=
  match validateFunctionName func.name with
  | Except.error e => Except.error e
  | Except.ok _ =>
    match func.parameters with
    | some p => validateFunctionParameters p
    | none => Except.ok ()

/-- Embeds `validateChatCompletionTool`: `type` must be `'function'`, then
the function definition is validated. -/
def validateChatCompletionTool (tool : ChatCompletionTool) :
    Except RegistryError Unit :=
  if tool.type ≠ "function" then
    Except.error (RegistryError.validation
      "Chat completion tool type must be \x22function\x22")
  else validateFunctionDefinition tool.function

/-- The `for (const def of fnDefinitions)` loop of
`validateToolConfiguration`: first definition name with no implementation
(`!functions[functionName]`). -/
def findMissingImplementation (functions : ToolFunctions) :
    List ChatCompletionTool → Option String
  | [] => none
  | d :: rest =>
    if (lookupFn functions d.function.name).isNone then some d.function.name
    else findMissingImplementation functions rest

/-- Embeds `validateToolConfiguration`: a definition/implementation count
mismatch throws a `ValidationError`; a definition with no same-named
implementation throws a `ToolNotFoundError`. -/
def validateToolConfiguration (fnDefinitions : List ChatCompletionTool)
    (functions : ToolFunctions) : Except RegistryError Unit :=
  if fnDefinitions.length ≠ functions.length then
    Except.error (RegistryError.validation
      ("Mismatch between number of function definitions (" ++
        toString fnDefinitions.length ++ ") and implementations (" ++
        toString functions.length ++ ")"))
  else
    match findMissingImplementation functions fnDefinitions with
    | some name =>
      Except.error (mkToolNotFound
        ("Missing function implementation for tool: " ++ name))
    | none => Except.ok ()

/-- One exported symbol of a tool source file: either an invokable
(`typeof fn === 'function'`) or any other value, to be validated as a tool
definition. -/
inductive ExportEntry where
  | fn (f : ToolFunction)
  | val (t : ChatCompletionTool)

/-- The per-export classification loop of `loadToolsDirFiles`: functions
are upserted into the implementation map (duplicate names: last wins),
other values are validated and appended to the definition list; a failed
validation aborts the load with an `InvalidToolError` naming the export. -/
def processEntries (fileLabel : String) :
    List (String × ExportEntry) → List ChatCompletionTool → ToolFunctions →
    Except RegistryError (List ChatCompletionTool × ToolFunctions)
  | [], defs, fns => Except.ok (defs, fns)
  | (fnName, ExportEntry.fn f) :: rest, defs, fns =>
    processEntries fileLabel rest defs (fnsInsert fns fnName f)
  | (fnName, ExportEntry.val t) :: rest, defs, fns =>
    match validateChatCompletionTool t with
    | Except.error e =>
      Except.error (RegistryError.invalidTool
        ("Invalid tool found at " ++ fileLabel ++ ": " ++ fnName ++
          ". Invalid tool definition: " ++ e.message))
    | Except.ok _ => processEntries fileLabel rest (defs ++ [t]) fns

/-- Embeds the post-enumeration core of `loadToolsDirFiles`: classify every
export, validate the final configuration, and only then publish the new
snapshot via `ToolsRegistry.setInstance`.  Returns the result together with
the (possibly unchanged) registry snapshot. -/
def loadToolsDirFiles (entries : List (String × ExportEntry))
    (registry : Option AgentTools) :
    Except RegistryError AgentTools × Option AgentTools :=
  match processEntries "dir" entries [] [] with
  | Except.error e => (Except.error e, registry)
  | Except.ok (toolDefinitions, toolFunctions) =>
    match validateToolConfiguration toolDefinitions toolFunctions with
    | Except.error e => (Except.error e, registry)
    | Except.ok _ =>
      let tools : AgentTools := ⟨toolDefinitions, toolFunctions⟩
      (Except.ok tools, some tools)

/-- The catch-all of `importToolFunctions`: `ValidationError` and
`ToolNotFoundError` are rethrown as-is, anything else is wrapped into a
plain `Error` prefixed `Failed to import tool functions: `. -/
def wrapImportError : RegistryError → RegistryError
  | RegistryError.validation m => RegistryError.validation m
  | RegistryError.toolNotFound m => RegistryError.toolNotFound m
  | e => RegistryError.generic
      ("Failed to import tool functions: " ++ e.message)

/-- Embeds `importToolFunctions`: fails when no tools directory path was
recorded; otherwise uses the active snapshot (lazily loading it when
absent), maps each requested name to its definition, collects **all**
missing names, and fails with a single `ToolNotFoundError` listing them;
on success returns the matched definitions plus the full implementation
map.  `entries` is what loading the recorded directory would enumerate. -/
def importToolFunctions (toolNames : List String)
    (toolsDirPath : Option String) (registry : Option AgentTools)
    (entries : List (String × ExportEntry)) :
    Except RegistryError ToolChoices × Option AgentTools :=
  let inner : Except RegistryError ToolChoices × Option AgentTools :=
    match toolsDirPath with
    | none =>
      (Except.error (RegistryError.validation
        "Tools directory path not set. Call loadToolsDirFiles with your tools directory path first."),
       registry)
    | some _ =>
      let loadRes : Except RegistryError AgentTools × Option AgentTools :=
        match registry with
        | some tools => (Except.ok tools, registry)
        | none => loadToolsDirFiles entries registry
      match loadRes with
      | (Except.error e, reg) => (Except.error e, reg)
      | (Except.ok tools, reg) =>
        let toolChoices := toolNames.filterMap (fun toolName =>
          tools.toolDefinitions.find? (fun tool =>
            tool.function.name = toolName))
        let missingTools := toolNames.filter (fun name =>
          !(toolChoices.any (fun tool => tool.function.name = name)))
        if missingTools.length > 0 then
          (Except.error (mkToolNotFound
            ("The following tools were not found: " ++
              String.intercalate ", " missingTools)), reg)
        else
          (Except.ok ⟨toolChoices, tools.toolFunctions⟩, reg)
  match inner with
  | (Except.error e, reg) => (Except.error (wrapImportError e), reg)
  | ok => ok

/-! ## Tool dispatcher (`OpenAIAgent._callChosenFunctions`)

`JSON.parse` of the raw argument string is external to the repository and
is supplied as a parameter `parse` (`none` models a parse throw);
`JSON.stringify` of the two content shapes the dispatcher produces is
modelled concretely below. -/

/-- `JSON.stringify` of a string result. -/
def stringifyStr (s : String) : String := "\x22" ++ s ++ "\x22"

/-- `JSON.stringify` of the structured payload
`\x7b error: errorMessage \x7d` the dispatcher builds on a per-call
failure. -/
def errorContent (errorMessage : String) : String :=
  "\x7b\x22error\x22:" ++ stringifyStr errorMessage ++ "\x7d"

/-- An error tool-message (the `catch` branch of the dispatcher loop). -/
def errToolMsg (id : String) (errorMessage : String) : Msg :=
  { role := Role.tool
    content := some (errorContent errorMessage)
    tool_call_id := some id }

/-- One iteration of the dispatcher loop (the `try`/`catch` body): look the
name up, parse the raw arguments, invoke the implementation, reject an
`undefined` result; every failure is absorbed into an error tool-message. -/
def callFunction (parse : String → Option JsValue) (functions : ToolFunctions)
    (tool : ToolCallObj) : Msg :=
  let name := tool.function.name
  match lookupFn functions name with
  | none => errToolMsg tool.id ("Function '" ++ name ++ "' not found")
  | some currentFunction =>
    match parse tool.function.arguments with
    | none =>
      errToolMsg tool.id
        ("Invalid arguments format for function '" ++ name ++ "': " ++
          tool.function.arguments)
    | some parsedArgs =>
      match currentFunction parsedArgs with
      | Except.error m => errToolMsg tool.id m
      | Except.ok none =>
        errToolMsg tool.id ("Function '" ++ name ++ "' returned no response")
      | Except.ok (some functionResponse) =>
        { role := Role.tool
          content := some (stringifyStr functionResponse)
          tool_call_id := some tool.id }

/-- Embeds `_callChosenFunctions`: throws iff `tool_calls` is absent or
empty (`!responseMessage.tool_calls?.length`); otherwise produces exactly
one tool-message per call, in call order. -/
def callChosenFunctions (parse : String → Option JsValue)
    (functions : ToolFunctions) (responseMessage : Msg) :
    Except String (List Msg) :=
  match responseMessage.tool_calls with
  | none => Except.error "No tool calls found in the response message"
  | some [] => Except.error "No tool calls found in the response message"
  | some calls => Except.ok (calls.map (callFunction parse functions))

/-! ## Completion orchestrator (`src/agent.ts`, class `OpenAIAgent`)

One turn (`createChatCompletion`) is embedded as a pure function over:
  * the agent's mutable fields (`AgentState`),
  * the process-wide registry (`toolsDirPath`, `registry`, plus the
    `entries` a lazy load would enumerate),
  * the provider's behaviour for the at most two calls of the turn and a
    fault injection for the history-store read (`ProviderEnv`),
  * the external `JSON.parse` used by the dispatcher.

JS array aliasing is significant here: `_getContextMessages` *assigns*
`this.defaultHistoryMessages` to its working variable when the field is
defined (any array, even empty, is truthy), so every later push/shift/
unshift on the working sequence mutates the agent-level template.  The
post-state therefore replaces `defaultHistoryMessages` with the final
working sequence exactly when the field was defined.  Store writes are
modelled as reliable; `readFault` injects a rejection of the Redis read
that `_getContextMessages` awaits. -/

/-- A provider response, reduced to what the orchestrator reads:
`choices[0].message` (`none` models a missing message) and `usage`. -/
structure ChatResp where
  message : Option Msg
  usage : Option Usage := none
deriving DecidableEq, Repr

/-- Modelled from the spec: `getCompletionsUsage` (imported from
`./utils`, not part of the sources) aggregates "usage from both calls
field-wise (`prompt+prompt, completion+completion, total+total`, missing
operand = 0)"; it coincides with the in-repo `getTokensUsage` applied to
the two responses' usage records. -/
def getCompletionsUsage (r1 : ChatResp) (r2 : Option ChatResp) : Usage :=
  getTokensUsage r1.usage (r2.bind ChatResp.usage)

/-- The `CompletionResult` fields the claims are about (`choices` comes
from `handleNResponses`, also outside the sources, and carries no
claim-relevant structure). -/
structure CompletionResultM where
  total_usage : Usage
  completion_messages : List Msg
  completions : List ChatResp
deriving DecidableEq, Repr

/-- The agent's mutable per-instance fields: `system_instruction`,
`defaultHistoryMessages` (the `messages` template moved out of
`completionParams` by the constructor), the optional storage (`Storage`
plus the Redis content), `historyOptions`, and the `user` field of
`completionParams`. -/
structure AgentState where
  system_instruction : Option String := none
  defaultHistoryMessages : Option (List Msg) := none
  storageConfigured : Bool := false
  store : Store := []
  historyOptions : Option HistoryOptions := none
  paramsUser : Option String := none

/-- Outcomes of the turn's awaited collaborators: a fault injection for
the history read and the results of the first and second provider call. -/
structure ProviderEnv where
  readFault : Option String := none
  first : Except String ChatResp
  second : Except String ChatResp := Except.error "no second call scripted"

/-- `CreateChatCompletionOptions` (plus the `user` override that may come
through `custom_params`). -/
structure CreateOpts where
  message : String
  system_instruction : Option String := none
  tool_choices : Option (List String) := none
  customUser : Option String := none
  history : Option HistoryOptions := none

/-- The spread merge `{ ...this.historyOptions, ...options.history }`,
field-wise (a field set in the per-call options wins). -/
def mergeHistoryOptions (a b : Option HistoryOptions) : HistoryOptions :=
  let x := a.getD {}
  let y := b.getD {}
  { appended_messages := y.appended_messages <|> x.appended_messages
    remove_tool_messages := y.remove_tool_messages <|> x.remove_tool_messages }

/-- Embeds `_handleSystemInstructionMessage`: the per-call instruction
wins when truthy, else the agent default when truthy, else an
empty-content system message (JS `''` and `undefined` are both falsy). -/
def handleSystemInstructionMessage
    (defaultInstruction customInstruction : Option String) : Msg :=
  if jsTruthyStr defaultInstruction && !(jsTruthyStr customInstruction) then
    { role := Role.system, content := some (defaultInstruction.getD "") }
  else if jsTruthyStr customInstruction then
    { role := Role.system, content := some (customInstruction.getD "") }
  else
    { role := Role.system, content := some "" }

/-- The `if (systemImstructionMessage.content)` block of
`createChatCompletion`: when the resolved instruction is non-empty, a
leading system-role stored message is shifted off and the instruction is
unshifted on; otherwise the sequence is untouched. -/
def resolveLeadingSystem (sysMsg : Msg) (stored : List Msg) : List Msg :=
  if jsTruthyStr sysMsg.content then
    sysMsg ::
      (match stored with
       | m :: rest => if m.role = Role.system then rest else stored
       | [] => [])
  else stored

/-- What one `createChatCompletion` invocation produces: the returned (or
thrown) result, the agent's post-state, the registry post-state, and the
message sequence submitted to the first provider call (`none` when the
turn failed before reaching it). -/
structure TurnResult where
  result : Except String CompletionResultM
  state : AgentState
  registry : Option AgentTools
  sentMessages : Option (List Msg)

/-- Embeds `createChatCompletion` (with `_getContextMessages` and
`_handleToolCompletion` inlined at their call sites).  The history-store
read happens *before* the `try` block, so its fault propagates unwrapped;
every fault inside the `try` (tool resolution, provider calls, the
dispatcher's empty-`tool_calls` throw) is wrapped into
`Chat completion failed: <original message>`.  History is written only
immediately before the two successful returns. -/
def createChatCompletion (st : AgentState) (toolsDirPath : Option String)
    (registry : Option AgentTools) (entries : List (String × ExportEntry))
    (parse : String → Option JsValue) (env : ProviderEnv)
    (opts : CreateOpts) : TurnResult :=
  let queryUser : Option String := opts.customUser <|> st.paramsUser
  let userId : String := defaultedUserId queryUser
  let merged := mergeHistoryOptions st.historyOptions opts.history
  let historyOptions :=
    if st.storageConfigured && opts.tool_choices.isSome &&
        jsTruthyNat (st.historyOptions.bind HistoryOptions.appended_messages)
    then { merged with remove_tool_messages := some true }
    else merged
  let readOutcome : Except String (List Msg) :=
    if st.storageConfigured then
      match env.readFault with
      | some e => Except.error e
      | none => Except.ok (getStoredMessages st.store userId historyOptions)
    else Except.ok []
  match readOutcome with
  | Except.error e =>
    { result := Except.error e, state := st, registry := registry
      sentMessages := none }
  | Except.ok fetched =>
    let templateMessages := st.defaultHistoryMessages.getD []
    let storedMessages := templateMessages ++ fetched
    let sysMsg := handleSystemInstructionMessage
      st.system_instruction opts.system_instruction
    let withSys := resolveLeadingSystem sysMsg storedMessages
    let userMsg : Msg := { role := Role.user, content := some opts.message }
    let working := withSys ++ [userMsg]
    let newMessages1 : List Msg := [userMsg]
    let mkState : List Msg → Store → AgentState := fun working' store' =>
      { st with
          defaultHistoryMessages :=
            st.defaultHistoryMessages.map (fun _ => working')
          store := store' }
    match
      (if (opts.tool_choices.getD []).length ≠ 0 then
        match importToolFunctions (opts.tool_choices.getD [])
            toolsDirPath registry entries with
        | (Except.ok tc, reg) => Except.ok (some tc, reg)
        | (Except.error e, reg) => Except.error (e, reg)
      else Except.ok (none, registry)) with
    | Except.error (e, reg) =>
      { result := Except.error ("Chat completion failed: " ++ e.message)
        state := mkState working st.store, registry := reg
        sentMessages := none }
    | Except.ok (toolImport, reg) =>
      match env.first with
      | Except.error e =>
        { result := Except.error ("Chat completion failed: " ++ e)
          state := mkState working st.store, registry := reg
          sentMessages := some working }
      | Except.ok response =>
        match response.message with
        | none =>
          { result := Except.error
              "Chat completion failed: No response message received from OpenAI"
            state := mkState working st.store, registry := reg
            sentMessages := some working }
        | some responseMessage =>
          let newMessages2 := newMessages1 ++ [responseMessage]
          if responseMessage.tool_calls.isSome && toolImport.isSome then
            let working4 := working ++ [responseMessage]
            let fns := (toolImport.getD ⟨[], []⟩).toolFunctions
            match callChosenFunctions parse fns responseMessage with
            | Except.error e =>
              { result := Except.error ("Chat completion failed: " ++ e)
                state := mkState working4 st.store, registry := reg
                sentMessages := some working }
            | Except.ok toolMessages =>
              let working5 := working4 ++ toolMessages
              let newMessages3 := newMessages2 ++ toolMessages
              match env.second with
              | Except.error e =>
                { result := Except.error ("Chat completion failed: " ++ e)
                  state := mkState working5 st.store, registry := reg
                  sentMessages := some working }
              | Except.ok secondResponse =>
                match secondResponse.message with
                | none =>
                  { result := Except.error
                      "Chat completion failed: No response message received from second tool query to OpenAI"
                    state := mkState working5 st.store, registry := reg
                    sentMessages := some working }
                | some secondResponseMessage =>
                  let newMessages4 := newMessages3 ++ [secondResponseMessage]
                  let store' :=
                    if st.storageConfigured then
                      (saveChatHistory st.store queryUser newMessages4).2
                    else st.store
                  { result := Except.ok
                      { total_usage :=
                          getCompletionsUsage response (some secondResponse)
                        completion_messages := newMessages4
                        completions := [response, secondResponse] }
                    state := mkState working5 store', registry := reg
                    sentMessages := some working }
          else
            let store' :=
              if st.storageConfigured then
                (saveChatHistory st.store queryUser newMessages2).2
              else st.store
            { result := Except.ok
                { total_usage := getCompletionsUsage response none
                  completion_messages := newMessages2
                  completions := [response] }
              state := mkState working store', registry := reg
              sentMessages := some working }

/-! ## Concrete fixtures

Sample messages, tools and states used to instantiate the theorems below
on concrete inputs. -/

/-- A sample user message. -/
def mUser : Msg := { role := Role.user, content := some "hello" }

/-- A sample assistant message without tool calls. -/
def mAsst : Msg := { role := Role.assistant, content := some "hi there" }

/-- A sample system message. -/
def mSys : Msg := { role := Role.system, content := some "be nice" }

/-- A sample `JSON.parse` behaviour: fails exactly on `"bad json"`. -/
def parseW : String → Option JsValue :=
  fun s => if s = "bad json" then none else some (JsValue.objv [])

/-- A sample implementation returning a string. -/
def implW : ToolFunction := fun _ => Except.ok (some "sunny")

/-- A sample implementation map holding only `get_weather`. -/
def fnsW : ToolFunctions := [("get_weather", implW)]

/-- A call to the known tool. -/
def callKnown : ToolCallObj := ⟨"call_1", ⟨"get_weather", "x"⟩⟩

/-- A call to an unknown tool. -/
def callUnknown : ToolCallObj := ⟨"call_2", ⟨"no_such_tool", "x"⟩⟩

/-- An assistant message carrying the two calls above. -/
def respMsgW : Msg :=
  { role := Role.assistant, tool_calls := some [callKnown, callUnknown] }

/-- A valid definition for `get_weather`. -/
def toolDefW : ChatCompletionTool :=
  ⟨"function", ⟨"get_weather", some "gets weather", some (JsValue.objv []), none⟩⟩

/-- A snapshot holding the definition and implementation above. -/
def toolsW : AgentTools := ⟨[toolDefW], fnsW⟩

/-- A sample usage record. -/
def usageW : Usage := ⟨7, 5, 12⟩

/-- A provider response with an assistant message and no tool calls. -/
def respW : ChatResp := { message := some mAsst, usage := some usageW }

/-- An agent with storage configured and a template history, whose store
holds two messages for the default user. -/
def stC10 : AgentState :=
  { defaultHistoryMessages := some []
    storageConfigured := true
    store := [("user:default", [mAsst, mUser])] }

/-- An agent with storage configured over an empty store. -/
def stC8 : AgentState := { storageConfigured := true }

/-- A provider environment whose history read rejects. -/
def envReadFail : ProviderEnv :=
  { readFault := some "Redis connection lost"
    first := Except.ok respW }

/-- A provider environment with a successful first call and a working
read. -/
def envOkW : ProviderEnv := { first := Except.ok respW }

/-- A minimal turn request. -/
def optsW : CreateOpts := { message := "2+2?" }

/-! ## Store lemmas -/

/-- Looking up the key of the head entry. -/
theorem storeGet_cons_same (p : String × List Msg) (rest : Store) (k : String)
    (h : p.1 = k) : storeGet (p :: rest) k = p.2 := by
  simp [storeGet, List.find?_cons, h]

/-- Looking up a different key skips the head entry. -/
theorem storeGet_cons_other (p : String × List Msg) (rest : Store) (k : String)
    (h : ¬(p.1 = k)) : storeGet (p :: rest) k = storeGet rest k := by
  simp [storeGet, List.find?_cons, h]

/-- Erasing the head entry's key. -/
theorem storeErase_cons_same (p : String × List Msg) (rest : Store) (k : String)
    (h : p.1 = k) : storeErase (p :: rest) k = storeErase rest k := by
  simp [storeErase, List.filter_cons, h]

/-- Erasing a different key keeps the head entry. -/
theorem storeErase_cons_other (p : String × List Msg) (rest : Store) (k : String)
    (h : ¬(p.1 = k)) : storeErase (p :: rest) k = p :: storeErase rest k := by
  simp [storeErase, List.filter_cons, h]

/-- Erasing a key leaves other keys unchanged. -/
theorem storeGet_erase_other (st : Store) (k k' : String) (h : k' ≠ k) :
    storeGet (storeErase st k) k' = storeGet st k' := by
  induction st with
  | nil => rfl
  | cons p rest ih =>
    by_cases hp : p.1 = k
    · have hp' : ¬(p.1 = k') := fun hk => h (hk.symm.trans hp)
      rw [storeErase_cons_same _ _ _ hp, storeGet_cons_other _ _ _ hp', ih]
    · rw [storeErase_cons_other _ _ _ hp]
      by_cases hk' : p.1 = k'
      · rw [storeGet_cons_same _ _ _ hk', storeGet_cons_same _ _ _ hk']
      · rw [storeGet_cons_other _ _ _ hk', storeGet_cons_other _ _ _ hk', ih]

/-- Erasing removes the key. -/
theorem storeGet_erase_same (st : Store) (k : String) :
    storeGet (storeErase st k) k = [] := by
  induction st with
  | nil => rfl
  | cons p rest ih =>
    by_cases hp : p.1 = k
    · rw [storeErase_cons_same _ _ _ hp, ih]
    · rw [storeErase_cons_other _ _ _ hp, storeGet_cons_other _ _ _ hp, ih]

/-- After an erase the key no longer exists. -/
theorem storeHasKey_erase_same (st : Store) (k : String) :
    storeHasKey (storeErase st k) k = false := by
  induction st with
  | nil => rfl
  | cons p rest ih =>
    by_cases hp : p.1 = k
    · rw [storeErase_cons_same _ _ _ hp, ih]
    · rw [storeErase_cons_other _ _ _ hp]
      simpa [storeHasKey, hp] using ih

/-- Erasing twice is erasing once. -/
theorem storeErase_idem (st : Store) (k : String) :
    storeErase (storeErase st k) k = storeErase st k := by
  induction st with
  | nil => rfl
  | cons p rest ih =>
    by_cases hp : p.1 = k
    · rw [storeErase_cons_same _ _ _ hp, ih]
    · rw [storeErase_cons_other _ _ _ hp, storeErase_cons_other _ _ _ hp, ih]

/-- Reading the pushed key sees the new element first. -/
theorem storeGet_lPush_same (st : Store) (k : String) (m : Msg) :
    storeGet (lPush st k m) k = m :: storeGet st k := by
  rw [lPush, storeGet_cons_same _ _ _ rfl]

/-- Pushing at one key leaves other keys unchanged. -/
theorem storeGet_lPush_other (st : Store) (k k' : String) (m : Msg)
    (h : k' ≠ k) : storeGet (lPush st k m) k' = storeGet st k' := by
  have h' : ¬(k = k') := fun hk => h hk.symm
  rw [lPush, storeGet_cons_other _ _ _ h', storeGet_erase_other _ _ _ h]

/-- Folding `lPush` over a message list prepends its reverse. -/
theorem storeGet_foldl_lPush (msgs : List Msg) (st : Store) (k : String) :
    storeGet (msgs.foldl (fun s m => lPush s k m) st) k =
      msgs.reverse ++ storeGet st k := by
  induction msgs generalizing st with
  | nil => simp
  | cons m rest ih =>
    simp [List.foldl_cons, ih, storeGet_lPush_same]

/-- Folding `lPush` at one key leaves other keys unchanged. -/
theorem storeGet_foldl_lPush_other (msgs : List Msg) (st : Store)
    (k k' : String) (h : k' ≠ k) :
    storeGet (msgs.foldl (fun s m => lPush s k m) st) k' = storeGet st k' := by
  induction msgs generalizing st with
  | nil => rfl
  | cons m rest ih =>
    simp [List.foldl_cons, ih, storeGet_lPush_other _ _ _ _ h]

/-! ## Claim theorems -/

/-- C2: usage aggregation is field-wise addition with a missing operand
treated as zero: `aggregate(undefined, u) = u`, and on two records each of
the three counters is the sum of the operands' counters. -/
theorem getTokensUsage_fieldwise :
    (∀ u : Usage, getTokensUsage none (some u) = u) ∧
    (∀ a b : Usage,
      (getTokensUsage (some a) (some b)).prompt_tokens =
        a.prompt_tokens + b.prompt_tokens ∧
      (getTokensUsage (some a) (some b)).completion_tokens =
        a.completion_tokens + b.completion_tokens ∧
      (getTokensUsage (some a) (some b)).total_tokens =
        a.total_tokens + b.total_tokens) := by
  constructor
  · intro u; cases u; simp [getTokensUsage]
  · intro a b; exact ⟨rfl, rfl, rfl⟩

/-- C3: for a stored log whose chronological order is `L` (the
prepend-optimized entry is `L.reverse`), a read with `limit = 0` returns
`[]`, a read with `limit = k > 0` returns the `k` most recent messages in
chronological order (the range is reversed exactly once), and a read with
no limit returns the whole log in chronological order. -/
theorem getStoredMessages_read_spec (st : Store) (userId : String)
    (L : List Msg) (h : storeGet st ("user:" ++ userId) = L.reverse) :
    getStoredMessages st userId { appended_messages := some 0 } = [] ∧
    (∀ k : Nat, 0 < k →
      getStoredMessages st userId { appended_messages := some k } =
        L.drop (L.length - k)) ∧
    getStoredMessages st userId {} = L := by
  refine ⟨by simp [getStoredMessages], ?_, ?_⟩
  · intro k hk
    have hk0 : ¬(some k = some 0) := by simp [Nat.pos_iff_ne_zero.mp hk]
    by_cases he : (L.reverse.take k).isEmpty
    · have hnil : L.reverse.take k = [] := by
        simpa [List.isEmpty_iff] using he
      have hLnil : L = [] := by
        rcases List.take_eq_nil_iff.mp hnil with h0 | h0
        · exact absurd h0 (Nat.pos_iff_ne_zero.mp hk)
        · simpa using h0
      subst hLnil
      simp [getStoredMessages, lRangeTake, h]
    · have hnonnil : ¬((L.reverse.take k) = []) := by
        simpa [List.isEmpty_iff] using he
      simp only [getStoredMessages, lRangeTake, h, if_neg hk0]
      rw [if_neg (by simpa [List.isEmpty_iff] using hnonnil)]
      simp [List.take_reverse]
  · by_cases he : L = []
    · subst he; simp [getStoredMessages, h]
    · simp [getStoredMessages, h, he]

/-- C4: `saveChatHistory` drops a leading system-role message and persists
exactly the remaining messages, in their original chronological order,
under `user:<id>` (and touches no other key); in particular appending
`[system, m1, m2]` persists only `[m1, m2]`. -/
theorem saveChatHistory_append_spec (st : Store) (userId : Option String)
    (messages : List Msg) :
    storeGet (saveChatHistory st userId messages).2
        ("user:" ++ defaultedUserId userId) =
      (dropLeadingSystem messages).reverse ++
        storeGet st ("user:" ++ defaultedUserId userId) ∧
    (storeGet (saveChatHistory st userId messages).2
        ("user:" ++ defaultedUserId userId)).reverse =
      (storeGet st ("user:" ++ defaultedUserId userId)).reverse ++
        dropLeadingSystem messages ∧
    (∀ k, k ≠ "user:" ++ defaultedUserId userId →
      storeGet (saveChatHistory st userId messages).2 k = storeGet st k) ∧
    (∀ s m1 m2, messages = [{ role := Role.system, content := some s }, m1, m2] →
      storeGet (saveChatHistory st userId messages).2
          ("user:" ++ defaultedUserId userId) =
        [m2, m1] ++ storeGet st ("user:" ++ defaultedUserId userId)) := by
  have hmain :
      storeGet (saveChatHistory st userId messages).2
          ("user:" ++ defaultedUserId userId) =
        (dropLeadingSystem messages).reverse ++
          storeGet st ("user:" ++ defaultedUserId userId) := by
    simp [saveChatHistory, storeGet_foldl_lPush]
  refine ⟨hmain, ?_, ?_, ?_⟩
  · rw [hmain]; simp
  · intro k hk
    simp [saveChatHistory, storeGet_foldl_lPush_other _ _ _ _ hk]
  · intro s m1 m2 hmsg
    subst hmsg
    rw [hmain]
    simp [dropLeadingSystem]

/-- C4 witness: appending `[system, m1, m2]` to an empty store for user
`u1` persists exactly `[m1, m2]` (stored most-recent-first). -/
theorem saveChatHistory_append_spec_witness :
    "user:u2" ≠ "user:" ++ defaultedUserId (some "u1") ∧
    storeGet (saveChatHistory [] (some "u1") [mSys, mUser, mAsst]).2
        ("user:" ++ defaultedUserId (some "u1")) =
      [mAsst, mUser] ++ storeGet [] ("user:" ++ defaultedUserId (some "u1")) ∧
    storeGet (saveChatHistory [] (some "u1") [mSys, mUser, mAsst]).2 "user:u2" =
      storeGet [] "user:u2" :=
  ⟨by decide,
   (saveChatHistory_append_spec [] (some "u1") [mSys, mUser, mAsst]).2.2.2
     "be nice" mUser mAsst (by decide),
   (saveChatHistory_append_spec [] (some "u1") [mSys, mUser, mAsst]).2.2.1
     "user:u2" (by decide)⟩

/-- C3 witness: on a two-message log for `u1` (chronological `[user,
assistant]`), a read with limit 1 yields the most recent message. -/
theorem getStoredMessages_read_spec_witness :
    storeGet [("user:u1", [mAsst, mUser])] ("user:" ++ "u1") =
      [mUser, mAsst].reverse ∧ 0 < 1 ∧
    getStoredMessages [("user:u1", [mAsst, mUser])] "u1"
        { appended_messages := some 1 } = [mAsst] :=
  ⟨by decide, by decide,
   ((getStoredMessages_read_spec [("user:u1", [mAsst, mUser])] "u1"
       [mUser, mAsst] (by decide)).2.1 1 (by decide)).trans (by decide)⟩

/-- C7 counterexample: on a 5-message log for `u1`, the purge returns `1`
(the number of Redis keys removed), not `5` (the number of messages), and
the public `deleteChatHistory` returns `true`, not a count. -/
theorem deleteHistory_count_counterexample :
    (deleteHistory [("user:u1", [mUser, mAsst, mUser, mAsst, mUser])] "u1").1
      = 1 ∧
    (deleteHistory [("user:u1", [mUser, mAsst, mUser, mAsst, mUser])] "u1").1
      ≠ 5 ∧
    deleteChatHistory true [("user:u1", [mUser, mAsst, mUser, mAsst, mUser])]
        "u1" = Except.ok (true, []) := by
  refine ⟨by decide, by decide, rfl⟩

/-- C7 amended: `purgeHistory(userId)` deletes the user's entire log and is
idempotent — the storage-layer delete returns the number of Redis *keys*
removed (`1` when the log existed, `0` when absent, so a second purge
immediately after returns `0`, not a fault), while the public
`deleteChatHistory` returns `true`; it fails only when no store is
configured. -/
theorem deleteHistory_keycount_spec (st : Store) (userId : String) :
    (deleteHistory st userId).1 =
      (if storeHasKey st ("user:" ++ userId) then 1 else 0) ∧
    storeGet (deleteHistory st userId).2 ("user:" ++ userId) = [] ∧
    deleteHistory (deleteHistory st userId).2 userId =
      (0, (deleteHistory st userId).2) ∧
    deleteChatHistory false st userId =
      Except.error "Agent storage is not initalized." ∧
    deleteChatHistory true st userId =
      Except.ok (true, (deleteHistory st userId).2) := by
  refine ⟨rfl, ?_, ?_, rfl, rfl⟩
  · exact storeGet_erase_same st ("user:" ++ userId)
  · simp [deleteHistory, redisDel, storeHasKey_erase_same, storeErase_idem]

/-- Every dispatcher result message is tool-role and carries its call's id. -/
theorem callFunction_shape (parse : String → Option JsValue)
    (functions : ToolFunctions) (c : ToolCallObj) :
    (callFunction parse functions c).role = Role.tool ∧
    (callFunction parse functions c).tool_call_id = some c.id := by
  rcases hl : lookupFn functions c.function.name with _ | f
  · simp [callFunction, hl, errToolMsg]
  · rcases hp : parse c.function.arguments with _ | a
    · simp [callFunction, hl, hp, errToolMsg]
    · rcases hr : f a with m | r
      · simp [callFunction, hl, hp, hr, errToolMsg]
      · rcases r with _ | s
        · simp [callFunction, hl, hp, hr, errToolMsg]
        · simp [callFunction, hl, hp, hr]

/-- C1: on a non-empty list of model-issued tool calls the dispatcher
returns exactly one tool-role message per call, in call order, each tagged
with its call's id; a per-call failure (unknown name, unparseable raw
arguments, or an implementation returning `undefined`) yields an error
tool-message with a structured error payload instead of aborting the
batch; the dispatcher itself throws only on an absent or empty calls
list. -/
theorem callChosenFunctions_spec (parse : String → Option JsValue)
    (functions : ToolFunctions) (responseMessage : Msg) :
    ((responseMessage.tool_calls = none ∨ responseMessage.tool_calls = some []) →
      callChosenFunctions parse functions responseMessage =
        Except.error "No tool calls found in the response message") ∧
    (∀ calls, responseMessage.tool_calls = some calls → calls ≠ [] →
      callChosenFunctions parse functions responseMessage =
        Except.ok (calls.map (callFunction parse functions)) ∧
      (calls.map (callFunction parse functions)).length = calls.length ∧
      (calls.map (callFunction parse functions)).map Msg.tool_call_id =
        calls.map (fun c => some c.id) ∧
      (∀ m ∈ calls.map (callFunction parse functions), m.role = Role.tool)) ∧
    (∀ c : ToolCallObj,
      ((lookupFn functions c.function.name).isNone →
        callFunction parse functions c =
          errToolMsg c.id ("Function '" ++ c.function.name ++ "' not found")) ∧
      (∀ f, lookupFn functions c.function.name = some f →
        parse c.function.arguments = none →
        callFunction parse functions c =
          errToolMsg c.id ("Invalid arguments format for function '" ++
            c.function.name ++ "': " ++ c.function.arguments)) ∧
      (∀ f a, lookupFn functions c.function.name = some f →
        parse c.function.arguments = some a → f a = Except.ok none →
        callFunction parse functions c =
          errToolMsg c.id
            ("Function '" ++ c.function.name ++ "' returned no response"))) := by
  refine ⟨?_, ?_, ?_⟩
  · rintro (h | h) <;> simp [callChosenFunctions, h]
  · intro calls hc hne
    refine ⟨?_, List.length_map _ _, ?_, ?_⟩
    · cases calls with
      | nil => exact absurd rfl hne
      | cons a as => simp [callChosenFunctions, hc]
    · rw [List.map_map]
      exact List.map_congr_left
        (fun c _ => (callFunction_shape parse functions c).2)
    · intro m hm
      rcases List.mem_map.mp hm with ⟨c, _, rfl⟩
      exact (callFunction_shape parse functions c).1
  · intro c
    refine ⟨?_, ?_, ?_⟩
    · intro h
      rcases hl : lookupFn functions c.function.name with _ | f
      · simp [callFunction, hl]
      · rw [hl] at h; simp at h
    · intro f hf hp
      simp [callFunction, hf, hp]
    · intro f a hf hp hr
      simp [callFunction, hf, hp, hr]

/-- C1 witness: two calls, the second to an unknown tool, produce exactly
two tool-messages in call order — a success and an in-band error
payload. -/
theorem callChosenFunctions_spec_witness :
    ([callKnown, callUnknown] ≠ ([] : List ToolCallObj)) ∧
    callChosenFunctions parseW fnsW respMsgW =
      Except.ok
        [{ role := Role.tool, content := some (stringifyStr "sunny")
           tool_call_id := some "call_1" },
         errToolMsg "call_2" "Function 'no_such_tool' not found"] :=
  ⟨by decide,
   ((callChosenFunctions_spec parseW fnsW respMsgW).2.1
      [callKnown, callUnknown] rfl (by decide)).1.trans (by rfl)⟩

/-- C5: when the processed artifacts yield a definition count different
from the implementation count, or a definition with no same-named
implementation, `loadToolsDirFiles` fails with the corresponding
count-mismatch / missing-implementation fault and leaves the previously
published registry snapshot unchanged; the new snapshot is published only
after `validateToolConfiguration` succeeds. -/
theorem loadToolsDirFiles_validation_gate
    (entries : List (String × ExportEntry)) (registry : Option AgentTools) :
    (∀ e, (loadToolsDirFiles entries registry).1 = Except.error e →
      (loadToolsDirFiles entries registry).2 = registry) ∧
    (∀ defs fns, processEntries "dir" entries [] [] = Except.ok (defs, fns) →
      (defs.length ≠ fns.length →
        loadToolsDirFiles entries registry =
          (Except.error (RegistryError.validation
            ("Mismatch between number of function definitions (" ++
              toString defs.length ++ ") and implementations (" ++
              toString fns.length ++ ")")), registry)) ∧
      (∀ name, defs.length = fns.length →
        findMissingImplementation fns defs = some name →
        loadToolsDirFiles entries registry =
          (Except.error (mkToolNotFound
            ("Missing function implementation for tool: " ++ name)),
           registry)) ∧
      (validateToolConfiguration defs fns = Except.ok () →
        loadToolsDirFiles entries registry =
          (Except.ok ⟨defs, fns⟩, some (⟨defs, fns⟩ : AgentTools)))) := by
  constructor
  · intro e he
    unfold loadToolsDirFiles at he ⊢
    cases hpe : processEntries "dir" entries [] [] with
    | error e' => simp [hpe]
    | ok p =>
      obtain ⟨defs, fns⟩ := p
      cases hv : validateToolConfiguration defs fns with
      | error e' => simp [hpe, hv]
      | ok u => rw [hpe] at he; simp [hv] at he
  · intro defs fns hpe
    refine ⟨?_, ?_, ?_⟩
    · intro hne
      simp [loadToolsDirFiles, hpe, validateToolConfiguration, hne]
    · intro name heq hfind
      simp [loadToolsDirFiles, hpe, validateToolConfiguration, heq, hfind]
    · intro hv
      simp [loadToolsDirFiles, hpe, hv]

/-- C5 witness: an artifact exporting one valid definition and no
implementation makes the load fail with the count-mismatch fault and
leaves the previous snapshot untouched. -/
theorem loadToolsDirFiles_validation_gate_witness :
    processEntries "dir" [("toolA", ExportEntry.val toolDefW)] [] [] =
      Except.ok ([toolDefW], []) ∧
    ([toolDefW].length ≠ ([] : ToolFunctions).length) ∧
    loadToolsDirFiles [("toolA", ExportEntry.val toolDefW)] (some toolsW) =
      (Except.error (RegistryError.validation
        "Mismatch between number of function definitions (1) and implementations (0)"),
       some toolsW) :=
  ⟨rfl, by decide,
   (((loadToolsDirFiles_validation_gate
       [("toolA", ExportEntry.val toolDefW)] (some toolsW)).2
       [toolDefW] [] rfl).1 (by decide)).trans (by rfl)⟩

/-- For a requested name, membership in the matched subset is exactly
findability among the loaded definitions. -/
theorem toolChoices_any_eq_isSome (defs : List ChatCompletionTool)
    (toolNames : List String) (name : String) (hmem : name ∈ toolNames) :
    ((toolNames.filterMap (fun n =>
        defs.find? (fun t => t.function.name = n))).any
          (fun t => t.function.name = name)) =
      (defs.find? (fun t => t.function.name = name)).isSome := by
  rcases hf : defs.find? (fun t => t.function.name = name) with _ | t
  · rw [hf]
    show _ = false
    rw [List.any_eq_false]
    intro t ht hpred
    rcases List.mem_filterMap.mp ht with ⟨n, _, hfn⟩
    have h1 : t.function.name = n := by simpa using List.find?_some hfn
    have h2 : t.function.name = name := by simpa using hpred
    rw [h2] at h1
    rw [← h1] at hfn
    rw [hfn] at hf
    cases hf
  · rw [hf]
    show _ = true
    rw [List.any_eq_true]
    refine ⟨t, List.mem_filterMap.mpr ⟨name, hmem, hf⟩, ?_⟩
    simpa using List.find?_some hf

/-- `!o.isSome = o.isNone`. -/
theorem not_isSome_eq_isNone {α : Type} (o : Option α) :
    (!o.isSome) = o.isNone := by cases o <;> rfl

/-- C6: with a recorded directory path and an active snapshot, resolution
collects **all** requested names missing from the snapshot and fails with
a single fault listing every one of them (not fail-fast on the first);
when none is missing it returns exactly the matched definition subset for
the requested names together with the full implementation map. -/
theorem importToolFunctions_spec (toolNames : List String) (path : String)
    (tools : AgentTools) (entries : List (String × ExportEntry)) :
    (toolNames.filter (fun name =>
        (tools.toolDefinitions.find?
          (fun t => t.function.name = name)).isNone) ≠ [] →
      importToolFunctions toolNames (some path) (some tools) entries =
        (Except.error (mkToolNotFound
          ("The following tools were not found: " ++
            String.intercalate ", " (toolNames.filter (fun name =>
              (tools.toolDefinitions.find?
                (fun t => t.function.name = name)).isNone)))),
         some tools)) ∧
    (toolNames.filter (fun name =>
        (tools.toolDefinitions.find?
          (fun t => t.function.name = name)).isNone) = [] →
      importToolFunctions toolNames (some path) (some tools) entries =
        (Except.ok ⟨toolNames.filterMap (fun n =>
            tools.toolDefinitions.find? (fun t => t.function.name = n)),
          tools.toolFunctions⟩,
         some tools)) := by
  have hmiss :
      toolNames.filter (fun name =>
        !((toolNames.filterMap (fun n =>
            tools.toolDefinitions.find? (fun t => t.function.name = n))).any
              (fun t => t.function.name = name))) =
      toolNames.filter (fun name =>
        (tools.toolDefinitions.find?
          (fun t => t.function.name = name)).isNone) := by
    apply List.filter_congr
    intro name hmem
    rw [toolChoices_any_eq_isSome tools.toolDefinitions toolNames name hmem,
        not_isSome_eq_isNone]
  constructor
  · intro hne
    have hpos : 0 < (toolNames.filter (fun name =>
        !((toolNames.filterMap (fun n =>
            tools.toolDefinitions.find? (fun t => t.function.name = n))).any
              (fun t => t.function.name = name)))).length := by
      rw [hmiss]
      exact List.length_pos.mpr hne
    simp only [importToolFunctions]
    rw [if_pos hpos, hmiss]
    rfl
  · intro hz
    have hlen : (toolNames.filter (fun name =>
        !((toolNames.filterMap (fun n =>
            tools.toolDefinitions.find? (fun t => t.function.name = n))).any
              (fun t => t.function.name = name)))).length = 0 := by
      rw [hmiss, hz]
      rfl
    simp only [importToolFunctions]
    rw [if_neg (by rw [hlen]; exact (lt_irrefl 0))]

/-- C6 witness: requesting one known and two unknown tools fails with a
single fault listing both missing names. -/
theorem importToolFunctions_spec_witness :
    (["get_weather", "foo", "bar"].filter (fun name =>
        (toolsW.toolDefinitions.find?
          (fun t => t.function.name = name)).isNone) ≠ []) ∧
    importToolFunctions ["get_weather", "foo", "bar"] (some "/tools")
        (some toolsW) [] =
      (Except.error (mkToolNotFound
        "The following tools were not found: foo, bar"), some toolsW) :=
  ⟨by decide,
   ((importToolFunctions_spec ["get_weather", "foo", "bar"] "/tools"
      toolsW []).1 (by decide)).trans (by rfl)⟩

/-- Once the turn reaches the first provider call (working read, no tool
resolution requested), the submitted message sequence is the template
followed by the fetched history and the new user message — on every branch
that follows. -/
theorem createChatCompletion_sent (st : AgentState)
    (toolsDirPath : Option String) (registry : Option AgentTools)
    (entries : List (String × ExportEntry)) (parse : String → Option JsValue)
    (env : ProviderEnv) (opts : CreateOpts)
    (h2 : st.storageConfigured = true) (h3 : st.system_instruction = none)
    (h4 : opts.system_instruction = none) (h5 : opts.tool_choices = none)
    (h6 : env.readFault = none) :
    (createChatCompletion st toolsDirPath registry entries parse env opts).sentMessages =
      some (st.defaultHistoryMessages.getD [] ++
        getStoredMessages st.store
          (defaultedUserId (opts.customUser <|> st.paramsUser))
          (mergeHistoryOptions st.historyOptions opts.history) ++
        [{ role := Role.user, content := some opts.message }]) := by
  simp only [createChatCompletion, h2, h3, h4, h5, h6]
  simp only [handleSystemInstructionMessage, jsTruthyStr, resolveLeadingSystem]
  cases henv : env.first with
  | error e => simp [henv]
  | ok resp =>
    cases hm : resp.message with
    | none => simp [henv, hm]
    | some respMsg => simp [henv, hm]

/-- A successful no-tool turn in full: the returned result, the mutated
template (aliased working sequence), the store write, and the submitted
messages. -/
theorem createChatCompletion_noTool (st : AgentState)
    (toolsDirPath : Option String) (registry : Option AgentTools)
    (entries : List (String × ExportEntry)) (parse : String → Option JsValue)
    (env : ProviderEnv) (opts : CreateOpts) (resp : ChatResp) (respMsg : Msg)
    (h2 : st.storageConfigured = true) (h3 : st.system_instruction = none)
    (h4 : opts.system_instruction = none) (h5 : opts.tool_choices = none)
    (h6 : env.readFault = none) (h7 : env.first = Except.ok resp)
    (h8 : resp.message = some respMsg) (h9 : respMsg.tool_calls = none) :
    createChatCompletion st toolsDirPath registry entries parse env opts =
      { result := Except.ok
          { total_usage := getCompletionsUsage resp none
            completion_messages :=
              [{ role := Role.user, content := some opts.message }, respMsg]
            completions := [resp] }
        state := { st with
          defaultHistoryMessages := st.defaultHistoryMessages.map (fun _ =>
            st.defaultHistoryMessages.getD [] ++
              getStoredMessages st.store
                (defaultedUserId (opts.customUser <|> st.paramsUser))
                (mergeHistoryOptions st.historyOptions opts.history) ++
              [{ role := Role.user, content := some opts.message }])
          store := (saveChatHistory st.store (opts.customUser <|> st.paramsUser)
            [{ role := Role.user, content := some opts.message }, respMsg]).2 }
        registry := registry
        sentMessages := some (st.defaultHistoryMessages.getD [] ++
          getStoredMessages st.store
            (defaultedUserId (opts.customUser <|> st.paramsUser))
            (mergeHistoryOptions st.historyOptions opts.history) ++
          [{ role := Role.user, content := some opts.message }]) } := by
  simp only [createChatCompletion, h2, h3, h4, h5, h6, h7, h8, h9]
  simp [handleSystemInstructionMessage, jsTruthyStr, resolveLeadingSystem]

/-- C9: a per-call system instruction overrides the agent-level default
for that call only (the agent's own `system_instruction` is never
modified by a turn); when a non-empty instruction is resolved and the
leading stored message is system-role, that message is replaced — shifted
off and the instruction unshifted on, not duplicated; and when neither a
default nor a per-call instruction is present the resolved content is
empty and no system message is inserted. -/
theorem system_instruction_rules (st : AgentState)
    (toolsDirPath : Option String) (registry : Option AgentTools)
    (entries : List (String × ExportEntry)) (parse : String → Option JsValue)
    (env : ProviderEnv) (opts : CreateOpts) :
    (∀ d c, c ≠ "" →
      handleSystemInstructionMessage d (some c) =
        { role := Role.system, content := some c }) ∧
    (∀ d, d ≠ "" →
      handleSystemInstructionMessage (some d) none =
        { role := Role.system, content := some d }) ∧
    (∀ sysMsg s m rest, sysMsg.content = some s → s ≠ "" →
      m.role = Role.system →
      resolveLeadingSystem sysMsg (m :: rest) = sysMsg :: rest) ∧
    (handleSystemInstructionMessage none none =
        { role := Role.system, content := some "" } ∧
      ∀ stored,
        resolveLeadingSystem (handleSystemInstructionMessage none none) stored
          = stored) ∧
    (createChatCompletion st toolsDirPath registry entries parse env
        opts).state.system_instruction = st.system_instruction := by
  refine ⟨?_, ?_, ?_, ⟨rfl, ?_⟩, ?_⟩
  · intro d c hc
    simp [handleSystemInstructionMessage, jsTruthyStr, hc]
  · intro d hd
    simp [handleSystemInstructionMessage, jsTruthyStr, hd]
  · intro sysMsg s m rest hcont hs hm
    simp [resolveLeadingSystem, jsTruthyStr, hcont, hs, hm]
  · intro stored
    simp [resolveLeadingSystem, handleSystemInstructionMessage, jsTruthyStr]
  · simp only [createChatCompletion]
    repeat' split
    all_goals rfl

/-- C9 witness: a non-empty resolved instruction replaces (does not
duplicate) the leading stored system message. -/
theorem system_instruction_rules_witness :
    (("focus" : String) ≠ "") ∧ mSys.role = Role.system ∧
    resolveLeadingSystem { role := Role.system, content := some "focus" }
        [mSys, mUser] =
      [{ role := Role.system, content := some "focus" }, mUser] :=
  ⟨by decide, by decide,
   (system_instruction_rules stC8 none none [] parseW envOkW optsW).2.2.1
     { role := Role.system, content := some "focus" } "focus" mSys [mUser]
     rfl (by decide) (by decide)⟩

/-- C10 (implicit frame effect): when the agent is constructed with a
template history, `_getContextMessages` assigns the
`defaultHistoryMessages` array itself to the working variable, so the turn
mutates the agent-level template in place: after a successful no-tool turn
the template equals the turn's working sequence — the original template,
then the messages fetched from the history store, then the new user
message — and is no longer the original template; and a subsequent turn
submits that accumulated sequence (plus its own fetch and user message) as
context. -/
theorem template_aliasing_mutation (st : AgentState) (tmpl : List Msg)
    (toolsDirPath : Option String) (registry : Option AgentTools)
    (entries : List (String × ExportEntry)) (parse : String → Option JsValue)
    (env : ProviderEnv) (opts : CreateOpts) (resp : ChatResp) (respMsg : Msg)
    (h1 : st.defaultHistoryMessages = some tmpl)
    (h2 : st.storageConfigured = true) (h3 : st.system_instruction = none)
    (h4 : opts.system_instruction = none) (h5 : opts.tool_choices = none)
    (h6 : env.readFault = none) (h7 : env.first = Except.ok resp)
    (h8 : resp.message = some respMsg) (h9 : respMsg.tool_calls = none) :
    (createChatCompletion st toolsDirPath registry entries parse env
        opts).state.defaultHistoryMessages =
      some (tmpl ++
        getStoredMessages st.store
          (defaultedUserId (opts.customUser <|> st.paramsUser))
          (mergeHistoryOptions st.historyOptions opts.history) ++
        [{ role := Role.user, content := some opts.message }]) ∧
    (createChatCompletion st toolsDirPath registry entries parse env
        opts).state.defaultHistoryMessages ≠ some tmpl ∧
    (∀ env2 opts2, env2.readFault = none → opts2.system_instruction = none →
      opts2.tool_choices = none →
      (createChatCompletion
          (createChatCompletion st toolsDirPath registry entries parse env
            opts).state
          toolsDirPath registry entries parse env2 opts2).sentMessages =
        some ((tmpl ++
          getStoredMessages st.store
            (defaultedUserId (opts.customUser <|> st.paramsUser))
            (mergeHistoryOptions st.historyOptions opts.history) ++
          [{ role := Role.user, content := some opts.message }]) ++
          getStoredMessages
            (createChatCompletion st toolsDirPath registry entries parse env
              opts).state.store
            (defaultedUserId (opts2.customUser <|> st.paramsUser))
            (mergeHistoryOptions st.historyOptions opts2.history) ++
          [{ role := Role.user, content := some opts2.message }])) := by
  have hturn := createChatCompletion_noTool st toolsDirPath registry entries
    parse env opts resp respMsg h2 h3 h4 h5 h6 h7 h8 h9
  refine ⟨?_, ?_, ?_⟩
  · rw [hturn]
    simp [h1]
  · rw [hturn]
    simp only [h1, Option.map_some]
    intro hcontra
    have hlen := congrArg List.length (Option.some.inj hcontra)
    simp at hlen
  · intro env2 opts2 k6 k4 k5
    rw [hturn]
    rw [createChatCompletion_sent
      { st with
          defaultHistoryMessages := st.defaultHistoryMessages.map (fun _ =>
            st.defaultHistoryMessages.getD [] ++
              getStoredMessages st.store
                (defaultedUserId (opts.customUser <|> st.paramsUser))
                (mergeHistoryOptions st.historyOptions opts.history) ++
              [{ role := Role.user, content := some opts.message }])
          store := (saveChatHistory st.store
            (opts.customUser <|> st.paramsUser)
            [{ role := Role.user, content := some opts.message },
              respMsg]).2 }
      toolsDirPath registry entries parse env2 opts2 h2 h3 k4 k5 k6]
    simp [h1]

/-- C10 witness: a turn on an agent with an (initially empty) template and
a two-message stored log leaves the template holding the fetched history
plus the turn's user message. -/
theorem template_aliasing_mutation_witness :
    stC10.defaultHistoryMessages = some [] ∧
    (createChatCompletion stC10 none none [] parseW envOkW
        optsW).state.defaultHistoryMessages =
      some [mUser, mAsst, { role := Role.user, content := some "2+2?" }] :=
  ⟨rfl,
   ((template_aliasing_mutation stC10 [] none none [] parseW envOkW optsW
       respW mAsst rfl rfl rfl rfl rfl rfl rfl rfl rfl).1).trans (by decide)⟩

/-- C8 amended: every fault raised inside the turn's `try` block — tool
resolution, either provider call, a missing response message, or the
dispatcher's empty-`tool_calls` throw — is wrapped into a single
`Chat completion failed: <original message>` fault, and a turn failing in
any of these phases, or in assembly, writes nothing to the history store;
a fault in the assembly phase (the history-store read, which runs before
the `try`) also writes nothing but propagates to the caller *unwrapped*. -/
theorem turn_fault_spec (st : AgentState) (toolsDirPath : Option String)
    (registry : Option AgentTools) (entries : List (String × ExportEntry))
    (parse : String → Option JsValue) (env : ProviderEnv)
    (opts : CreateOpts) :
    (∀ e, st.storageConfigured = true → env.readFault = some e →
      (createChatCompletion st toolsDirPath registry entries parse env
        opts).result = Except.error e ∧
      (createChatCompletion st toolsDirPath registry entries parse env
        opts).state = st) ∧
    (∀ names e reg, env.readFault = none → opts.tool_choices = some names →
      names ≠ [] →
      importToolFunctions names toolsDirPath registry entries =
        (Except.error e, reg) →
      (createChatCompletion st toolsDirPath registry entries parse env
        opts).result =
        Except.error ("Chat completion failed: " ++ e.message) ∧
      (createChatCompletion st toolsDirPath registry entries parse env
        opts).state.store = st.store) ∧
    (∀ e, env.readFault = none → opts.tool_choices = none →
      env.first = Except.error e →
      (createChatCompletion st toolsDirPath registry entries parse env
        opts).result = Except.error ("Chat completion failed: " ++ e) ∧
      (createChatCompletion st toolsDirPath registry entries parse env
        opts).state.store = st.store) ∧
    (∀ resp, env.readFault = none → opts.tool_choices = none →
      env.first = Except.ok resp → resp.message = none →
      (createChatCompletion st toolsDirPath registry entries parse env
        opts).result =
        Except.error
          "Chat completion failed: No response message received from OpenAI" ∧
      (createChatCompletion st toolsDirPath registry entries parse env
        opts).state.store = st.store) ∧
    (∀ names tc reg resp respMsg, env.readFault = none →
      opts.tool_choices = some names → names ≠ [] →
      importToolFunctions names toolsDirPath registry entries =
        (Except.ok tc, reg) →
      env.first = Except.ok resp → resp.message = some respMsg →
      respMsg.tool_calls = some [] →
      (createChatCompletion st toolsDirPath registry entries parse env
        opts).result =
        Except.error
          "Chat completion failed: No tool calls found in the response message" ∧
      (createChatCompletion st toolsDirPath registry entries parse env
        opts).state.store = st.store) ∧
    (∀ names tc reg resp respMsg c cs e, env.readFault = none →
      opts.tool_choices = some names → names ≠ [] →
      importToolFunctions names toolsDirPath registry entries =
        (Except.ok tc, reg) →
      env.first = Except.ok resp → resp.message = some respMsg →
      respMsg.tool_calls = some (c :: cs) → env.second = Except.error e →
      (createChatCompletion st toolsDirPath registry entries parse env
        opts).result = Except.error ("Chat completion failed: " ++ e) ∧
      (createChatCompletion st toolsDirPath registry entries parse env
        opts).state.store = st.store) := by
  refine ⟨?_, ?_, ?_, ?_, ?_, ?_⟩
  · intro e hs hr
    constructor <;> simp [createChatCompletion, hs, hr]
  · intro names e reg hr hc hne him
    have hlen : names.length ≠ 0 := fun h => hne (List.length_eq_zero.mp h)
    cases hsc : st.storageConfigured <;>
      constructor <;>
        simp [createChatCompletion, hsc, hr, hc, hlen, him]
  · intro e hr hc hf
    cases hsc : st.storageConfigured <;>
      constructor <;> simp [createChatCompletion, hsc, hr, hc, hf]
  · intro resp hr hc hf hm
    cases hsc : st.storageConfigured <;>
      constructor <;> simp [createChatCompletion, hsc, hr, hc, hf, hm]
  · intro names tc reg resp respMsg hr hc hne him hf hm htc
    have hlen : names.length ≠ 0 := fun h => hne (List.length_eq_zero.mp h)
    cases hsc : st.storageConfigured <;>
      constructor <;>
        simp [createChatCompletion, callChosenFunctions, hsc, hr, hc, hlen,
          him, hf, hm, htc]
  · intro names tc reg resp respMsg c cs e hr hc hne him hf hm htc hs2
    have hlen : names.length ≠ 0 := fun h => hne (List.length_eq_zero.mp h)
    cases hsc : st.storageConfigured <;>
      constructor <;>
        simp [createChatCompletion, callChosenFunctions, hsc, hr, hc, hlen,
          him, hf, hm, htc, hs2]

/-- C8 amended witness: a first-call fault is wrapped and the store stays
untouched. -/
theorem turn_fault_spec_witness :
    (createChatCompletion stC8 none none [] parseW
        { first := Except.error "rate limited" } optsW).result =
      Except.error ("Chat completion failed: " ++ "rate limited") ∧
    (createChatCompletion stC8 none none [] parseW
        { first := Except.error "rate limited" } optsW).state.store =
      stC8.store :=
  (turn_fault_spec stC8 none none [] parseW
    { first := Except.error "rate limited" } optsW).2.2.1
    "rate limited" rfl rfl rfl

/-- C8 counterexample: a fault during assembly — the history-store read —
reaches the caller as-is, *not* wrapped into the single turn-failed fault
the claim requires for every phase. -/
theorem turn_fault_counterexample :
    (createChatCompletion stC8 none none [] parseW envReadFail optsW).result =
      Except.error "Redis connection lost" ∧
    (Except.error "Redis connection lost" : Except String CompletionResultM) ≠
      Except.error ("Chat completion failed: " ++ "Redis connection lost") := by
  refine ⟨rfl, ?_⟩
  intro h
  rw [Except.error.injEq] at h
  exact absurd h (by decide)
